import Mathlib

/-!
Shallow embedding of `cloudbio/distribution.py`: configuration of a Fabric
environment for a given Linux distribution.  The mutable Fabric `env`
(an attribute dictionary) is modelled as a record of optional fields; each
Python function that mutates `env` becomes a Lean function from `Env` to a
step result `SRes` carrying the updated environment, the warnings logged,
the remote commands issued, and an optional raised exception.  External
effects (remote command output, `os.environ`, the stdout of
`vagrant ssh-config`) are supplied by a `World` of oracles.
-/

/-- A Python value stored in a dynamically typed `env` field whose type can
change over the run (`nixpkgs` and `use_sudo` start as strings and are
normalized to booleans). -/
inductive PyVal where
  | str (s : String) : PyVal
  | bool (b : Bool) : PyVal
deriving DecidableEq, Repr

/-- A Python exception as raised by the module: `ValueError` with a message,
`AttributeError` on a missing `env` attribute, `KeyError` on a missing
dictionary key, `TypeError` from `%` string formatting. -/
inductive PyErr where
  | valueError (msg : String) : PyErr
  | attributeError (attr : String) : PyErr
  | keyError (key : String) : PyErr
  | typeError (msg : String) : PyErr
deriving DecidableEq, Repr

/-- The two execution primitives `safe_sudo` can be bound to: Fabric's
`sudo` (privileged) or `run` (plain). -/
inductive Executor where
  | sudo : Executor
  | run : Executor
deriving DecidableEq, Repr

/-- The Fabric environment context: a mutable attribute dictionary, modelled
as a record of optional fields (absent attribute = `none`). -/
structure Env where
  hosts : Option (List String) := none
  distribution : Option String := none
  dist_name : Option String := none
  user : Option String := none
  port : Option String := none
  host_string : Option String := none
  key_filename : Option String := none
  java_home : Option String := none
  python_version_ext : Option String := none
  ruby_version_ext : Option String := none
  sources_file : Option String := none
  apt_preferences_file : Option String := none
  std_sources : Option (List String) := none
  pip_cmd : Option String := none
  nixpkgs : Option PyVal := none
  use_sudo : Option PyVal := none
  safe_sudo : Option Executor := none
  system_install : Option String := none
  install_dir : Option String := none
  is_64bit : Option Bool := none
deriving DecidableEq, Repr

/-- Result of one setup step: the environment as mutated so far, the
warnings logged, the remote commands issued, and the exception raised
(if any).  Python mutates `env` in place, so the partially mutated
environment survives a raised exception. -/
structure SRes where
  env : Env
  warns : List String := []
  cmds : List String := []
  err : Option PyErr := none
deriving DecidableEq, Repr

/-- Sequencing of setup steps: a raised exception aborts the pass, leaving
the environment as already mutated; otherwise warnings and issued commands
accumulate. -/
def SRes.andThen (r : SRes) (f : Env → SRes) : SRes :=
  match r.err with
  | some _ => r
  | none =>
    let s := f r.env
    { env := s.env, warns := r.warns ++ s.warns, cmds := r.cmds ++ s.cmds, err := s.err }

/-- The external world: stdout of remotely run commands, the local process
environment `os.environ`, and the stdout of `vagrant ssh-config`. -/
structure World where
  runCmd : String → String
  osEnv : String → Option String
  vagrantSshConfig : String

/-- Index of the first occurrence of `needle` in a character list, as in
Python `str.find` (searching from the head). -/
def findSubstrFrom (needle : List Char) : List Char → Option Nat
  | [] => if needle = [] then some 0 else none
  | c :: rest =>
    if needle.isPrefixOf (c :: rest) then some 0
    else (findSubstrFrom needle rest).map (· + 1)

/-- Python `s.find(sub)`: index of the first occurrence of `sub` in `s`,
or `-1` when `sub` does not occur. -/
def pyFind (s sub : String) : Int :=
  match findSubstrFrom sub.data s.data with
  | some n => (n : Int)
  | none => -1

/-- Python `s.lower()` for the ASCII strings this module compares
(character-wise lowering). -/
def pyLower (s : String) : String :=
  String.mk (s.data.map Char.toLower)

/-- Python `s.strip()`: drop leading and trailing whitespace. -/
def pyStrip (s : String) : String :=
  String.mk (((s.data.dropWhile Char.isWhitespace).reverse.dropWhile
    Char.isWhitespace).reverse)

/-- Python `raw.split("\n")` on character lists: split at every newline,
keeping empty segments. -/
def splitLinesAux : List Char → List (List Char)
  | [] => [[]]
  | c :: rest =>
    let r := splitLinesAux rest
    if c = '\n' then [] :: r
    else
      match r with
      | [] => [[c]]
      | l :: ls => (c :: l) :: ls

/-- Python `raw.split("\n")`. -/
def splitLines (raw : String) : List String :=
  (splitLinesAux raw.data).map String.mk

/-- Python `l.split()` on character lists: split on runs of whitespace,
discarding empty pieces (`acc` is the current word, reversed). -/
def splitWsAux : List Char → List Char → List (List Char)
  | [], acc => if acc = [] then [] else [acc.reverse]
  | c :: rest, acc =>
    if c.isWhitespace then
      if acc = [] then splitWsAux rest []
      else acc.reverse :: splitWsAux rest []
    else splitWsAux rest (c :: acc)

/-- Python `s % v` for a single string argument `v`, on character lists:
`%s` consumes the argument (a second `%s` raises `TypeError: not enough
arguments`), `%%` is a literal percent, reaching the end without having
consumed the argument raises `TypeError: not all arguments converted`.
Any other conversion after `%` is not used by this module and is modelled
as an error. -/
def pyFormatAux (v : List Char) : List Char → Bool → Option (List Char)
  | [], used => if used then some [] else none
  | c :: rest, used =>
    if c = '%' then
      match rest with
      | [] => none
      | c2 :: rest2 =>
        if c2 = 's' then
          if used then none else (pyFormatAux v rest2 true).map (fun t => v ++ t)
        else if c2 = '%' then
          (pyFormatAux v rest2 used).map (fun t => '%' :: t)
        else none
    else (pyFormatAux v rest used).map (fun t => c :: t)

/-- Python `s % v` for a single string argument: `none` models a raised
`TypeError`. -/
def pyFormatS (s v : String) : Option String :=
  (pyFormatAux v.data s.data false).map String.mk

/-- The body of the loop of `_add_source_versions`: substitute the version
into one source template only when `s.find("%s") > 0`. -/
def subSource (version s : String) : Option String :=
  if pyFind s "%s" > 0 then pyFormatS s version else some s

/-- `_add_source_versions`: patch package source strings for the version;
`none` models a `TypeError` raised by `%` formatting inside the loop. -/
def add_source_versions (version : String) : List String → Option (List String)
  | [] => some []
  | s :: rest =>
    match subSource version s with
    | none => none
    | some t => (add_source_versions version rest).map (fun l => t :: l)

/-- `_setup_deb_general`: shared settings for Debian-derived distributions;
returns the updated environment together with the shared source templates. -/
def setup_deb_general (env : Env) : Env × List String :=
  let env := { env with
    sources_file := some "/etc/apt/sources.list.d/cloudbiolinux.list",
    apt_preferences_file := some "/etc/apt/preferences",
    python_version_ext := some "",
    ruby_version_ext := some "1.9.1" }
  let env :=
    if env.java_home.isNone then
      { env with java_home := some "/usr/lib/jvm/java-6-openjdk" }
    else env
  (env,
   ["deb http://nebc.nox.ac.uk/bio-linux/ unstable bio-linux",
    "deb http://download.virtualbox.org/virtualbox/debian %s contrib"])

/-- `_setup_ubuntu`: Debian-shared setup, then the Ubuntu source-template
list (profile-specific then shared), version-substituted via `dist_name`.
A missing `dist_name` raises `AttributeError`. -/
def setup_ubuntu (env : Env) : SRes :=
  let p := setup_deb_general env
  let env := p.1
  let sources :=
    ["deb http://au.archive.ubuntu.com/ubuntu/ %s universe",
     "deb http://au.archive.ubuntu.com/ubuntu/ %s multiverse",
     "deb http://au.archive.ubuntu.com/ubuntu/ %s-updates universe",
     "deb http://au.archive.ubuntu.com/ubuntu/ %s-updates multiverse",
     "deb http://archive.canonical.com/ubuntu %s partner",
     "deb http://downloads-distro.mongodb.org/repo/ubuntu-upstart dist 10gen",
     "deb http://cran.ms.unimelb.edu.au/bin/linux/ubuntu %s/",
     "deb http://archive.cloudera.com/debian maverick-cdh3 contrib",
     "deb http://archive.canonical.com/ubuntu %s partner",
     "deb http://ppa.launchpad.net/freenx-team/ppa/ubuntu %s main"] ++ p.2
  match env.dist_name with
  | none => { env := env, err := some (.attributeError "dist_name") }
  | some name =>
    match add_source_versions name sources with
    | none => { env := env, err := some (.typeError "format") }
    | some final => { env := { env with std_sources := some final } }

/-- `_setup_debian`: Debian-shared setup, then the Debian source-template
list, version-substituted via `dist_name`. -/
def setup_debian (env : Env) : SRes :=
  let p := setup_deb_general env
  let env := p.1
  let sources :=
    ["deb http://downloads-distro.mongodb.org/repo/debian-sysvinit dist 10gen",
     "deb http://cran.stat.ucla.edu/bin/linux/debian %s-cran/",
     "deb http://archive.cloudera.com/debian lenny-cdh3 contrib"] ++ p.2
  match env.dist_name with
  | none => { env := env, err := some (.attributeError "dist_name") }
  | some name =>
    match add_source_versions name sources with
    | none => { env := env, err := some (.typeError "format") }
    | some final => { env := { env with std_sources := some final } }

/-- `_setup_centos`: CentOS interpreter suffixes and guarded Java home. -/
def setup_centos (env : Env) : Env :=
  let env := { env with
    python_version_ext := some "2.6",
    ruby_version_ext := some "" }
  if env.java_home.isNone then
    { env with java_home := some "/etc/alternatives/java_sdk" }
  else env

/-- `_setup_scientificlinux`: alternate pip executable and guarded Java
home; the interpreter version suffixes are not assigned. -/
def setup_scientificlinux (env : Env) : Env :=
  let env := { env with pip_cmd := some "pip-python" }
  if env.java_home.isNone then
    { env with java_home := some "/etc/alternatives/java_sdk" }
  else env

/-- `_setup_nixpkgs`: enable the Nix package overlay only when the caller
set `nixpkgs` and the distribution is Debian-family and the value is the
string `"True"`; warn (non-fatally) when requested on another
distribution; always normalize `env.nixpkgs` to a boolean.  Reading
`env.distribution` raises `AttributeError` when the attribute is absent. -/
def setup_nixpkgs (env : Env) : SRes :=
  match env.nixpkgs with
  | none => { env := { env with nixpkgs := some (.bool false) } }
  | some v =>
    match env.distribution with
    | none => { env := env, err := some (.attributeError "distribution") }
    | some d =>
      if d = "debian" ∨ d = "ubuntu" then
        let b := if v = PyVal.str "True" then true else false
        { env := { env with nixpkgs := some (.bool b) } }
      else
        { env := { env with nixpkgs := some (.bool false) },
          warns := ["NixPkgs are currently not supported for " ++ d] }

/-- `_configure_sudo`: `getattr(env, "use_sudo", "true").lower()` in
`["true", "yes"]` binds `safe_sudo` to `sudo` and normalizes `use_sudo`
to `True`; any other string binds `run` and `False`; a boolean value has
no `.lower()` and raises `AttributeError`. -/
def configure_sudo (env : Env) : SRes :=
  match env.use_sudo with
  | none =>
    { env := { env with safe_sudo := some .sudo, use_sudo := some (.bool true) } }
  | some (.str s) =>
    if pyLower s = "true" ∨ pyLower s = "yes" then
      { env := { env with safe_sudo := some .sudo, use_sudo := some (.bool true) } }
    else
      { env := { env with safe_sudo := some .run, use_sudo := some (.bool false) } }
  | some (.bool _) => { env := env, err := some (.attributeError "lower") }

/-- `_cloudman_compatibility`: unconditionally copies `env.system_install`
to `env.install_dir`; a missing `system_install` raises `AttributeError`. -/
def cloudman_compatibility (env : Env) : SRes :=
  match env.system_install with
  | none => { env := env, err := some (.attributeError "system_install") }
  | some si => { env := { env with install_dir := some si } }

/-- `_validate_target_distribution`: for `debian`/`ubuntu` read
`/proc/version` remotely, fall back to `/etc/issue`, and raise `ValueError`
when the tag occurs (case-insensitively) in neither; otherwise do nothing.
Returns the raised exception (if any) and the list of remote commands
issued. -/
def validate_target_distribution (runCmd : String → String) (dist : String) :
    Option PyErr × List String :=
  if dist = "debian" ∨ dist = "ubuntu" then
    let tag := runCmd "cat /proc/version"
    if pyFind (pyLower tag) dist = -1 then
      let tag2 := runCmd "cat /etc/issue"
      if pyFind (pyLower tag2) dist = -1 then
        (some (.valueError
          ("Distribution does not match machine; are you using correct fabconfig for "
            ++ dist)),
         ["cat /proc/version", "cat /etc/issue"])
      else (none, ["cat /proc/version", "cat /etc/issue"])
    else (none, ["cat /proc/version"])
  else (none, [])

/-- `_setup_local_environment`: fill `user` from `os.environ["USER"]`
(raising `KeyError` when unset) and `java_home` from
`os.environ.get("JAVA_HOME", default)`, each only when absent. -/
def setup_local_environment (osEnv : String → Option String) (env : Env) : SRes :=
  let fillJava : Env → SRes := fun e =>
    if e.java_home.isNone then
      { env := { e with
          java_home := some ((osEnv "JAVA_HOME").getD "/usr/lib/jvm/java-6-openjdk") } }
    else { env := e }
  match env.user with
  | some _ => fillJava env
  | none =>
    match osEnv "USER" with
    | none => { env := env, err := some (.keyError "USER") }
    | some u => fillJava { env with user := some u }

/-- Python `l.split()` (no separator): split on runs of whitespace,
discarding empty pieces. -/
def pySplitWs (s : String) : List String :=
  (splitWsAux s.data []).map String.mk

/-- `dict([l.strip().split() for l in raw.split("\n") if l])`: each
non-empty line must strip-and-split into exactly a key and a value,
otherwise `dict` raises `ValueError`. -/
def sshPairs (raw : String) : Except PyErr (List (String × String)) :=
  ((splitLines raw).filter (fun l => l ≠ "")).mapM (fun l =>
    match pySplitWs (pyStrip l) with
    | [k, v] => Except.ok (k, v)
    | _ => Except.error (.valueError "dictionary update sequence element"))

/-- Lookup in a Python dict built from a pair list: the last binding of a
key wins. -/
def dictGet (ps : List (String × String)) (k : String) : Option String :=
  ((ps.filter (fun p => p.1 = k)).getLast?).map (fun p => p.2)

/-- `_setup_vagrant_environment`: parse `vagrant ssh-config` stdout and
store `user`, the single-element `hosts` list, `port`, the composite
`host_string` and `key_filename`; a missing key raises `KeyError` after
the earlier assignments have already happened. -/
def setup_vagrant_environment (raw : String) (env : Env) : SRes :=
  match sshPairs raw with
  | .error e => { env := env, err := some e }
  | .ok cfg =>
    match dictGet cfg "User" with
    | none => { env := env, err := some (.keyError "User") }
    | some u =>
      let env := { env with user := some u }
      match dictGet cfg "HostName" with
      | none => { env := env, err := some (.keyError "HostName") }
      | some hn =>
        let env := { env with hosts := some [hn] }
        match dictGet cfg "Port" with
        | none => { env := env, err := some (.keyError "Port") }
        | some p =>
          let env := { env with
            port := some p,
            host_string := some (u ++ "@" ++ hn ++ ":" ++ p) }
          match dictGet cfg "IdentityFile" with
          | none => { env := env, err := some (.keyError "IdentityFile") }
          | some kf => { env := { env with key_filename := some kf } }

/-- The host-resolution step of `_setup_distribution_environment`: the
sentinel hosts lists `["vagrant"]` and `["localhost"]` select a resolver,
anything else resolves nothing. -/
def dispatch_host (w : World) (env : Env) : SRes :=
  if env.hosts = some ["vagrant"] then setup_vagrant_environment w.vagrantSshConfig env
  else if env.hosts = some ["localhost"] then setup_local_environment w.osEnv env
  else { env := env }

/-- The profile-dispatch step of `_setup_distribution_environment`: exact
string match on the distribution tag; an unmatched tag raises `ValueError`
carrying the tag. -/
def dispatch_profile (dist : String) (env : Env) : SRes :=
  if dist = "ubuntu" then setup_ubuntu env
  else if dist = "centos" then { env := setup_centos env }
  else if dist = "scientificlinux" then { env := setup_scientificlinux env }
  else if dist = "debian" then setup_debian env
  else { env := env, err := some (.valueError ("Unexpected distribution " ++ dist)) }

/-- The tail of `_setup_distribution_environment` after profile dispatch:
target validation, the CloudMan compatibility shim, the nixpkgs toggle,
the sudo policy, and the `uname -m` architecture probe. -/
def finish_setup (w : World) (dist : String) (r : SRes) : SRes :=
  ((((r.andThen (fun env =>
        let v := validate_target_distribution w.runCmd dist
        { env := env, cmds := v.2, err := v.1 })).andThen
      cloudman_compatibility).andThen
     setup_nixpkgs).andThen
    configure_sudo).andThen
   (fun env =>
     let machine := w.runCmd "uname -m"
     { env := { env with is_64bit := some (pyFind machine "_64" > 0) },
       cmds := ["uname -m"] })

/-- `_setup_distribution_environment`: log the distribution (raising
`AttributeError` when absent), resolve hosts, dispatch to the profile,
then run the cross-cutting adjustors. -/
def setup_distribution_environment (w : World) (env : Env) : SRes :=
  match env.distribution with
  | none => { env := env, err := some (.attributeError "distribution") }
  | some dist => finish_setup w dist ((dispatch_host w env).andThen (dispatch_profile dist))

/-! ## Claim C8: vagrant-style host resolution -/

/-- C8: given the standard `vagrant ssh-config` output of the claim, the
vagrant resolver stores user `"vagrant"`, hosts `["127.0.0.1"]`, port
`"2222"`, key file `"/key"` and composite host string
`"vagrant@127.0.0.1:2222"`, raising nothing. -/
theorem c8_vagrant_resolution :
    (setup_vagrant_environment
      "User vagrant\nHostName 127.0.0.1\nPort 2222\nIdentityFile /key\n" {}).env.user
        = some "vagrant" ∧
    (setup_vagrant_environment
      "User vagrant\nHostName 127.0.0.1\nPort 2222\nIdentityFile /key\n" {}).env.hosts
        = some ["127.0.0.1"] ∧
    (setup_vagrant_environment
      "User vagrant\nHostName 127.0.0.1\nPort 2222\nIdentityFile /key\n" {}).env.port
        = some "2222" ∧
    (setup_vagrant_environment
      "User vagrant\nHostName 127.0.0.1\nPort 2222\nIdentityFile /key\n" {}).env.key_filename
        = some "/key" ∧
    (setup_vagrant_environment
      "User vagrant\nHostName 127.0.0.1\nPort 2222\nIdentityFile /key\n" {}).env.host_string
        = some "vagrant@127.0.0.1:2222" ∧
    (setup_vagrant_environment
      "User vagrant\nHostName 127.0.0.1\nPort 2222\nIdentityFile /key\n" {}).err
        = none := by
  refine ⟨rfl, rfl, rfl, rfl, rfl, rfl⟩

/-! ## Claim C5: sudo policy selection -/

/-- C5: an unset `use_sudo` flag, and any string value lowering to
`"true"` or `"yes"`, bind `safe_sudo` to the privileged primitive and
normalize `use_sudo` to `True`; any other string value binds the plain
primitive and normalizes to `False`. -/
theorem c5_sudo_policy (env : Env) :
    (env.use_sudo = none →
      configure_sudo env =
        { env := { env with safe_sudo := some .sudo, use_sudo := some (.bool true) } }) ∧
    (∀ s, env.use_sudo = some (.str s) →
      ((pyLower s = "true" ∨ pyLower s = "yes") →
        configure_sudo env =
          { env := { env with safe_sudo := some .sudo, use_sudo := some (.bool true) } }) ∧
      (¬ (pyLower s = "true" ∨ pyLower s = "yes") →
        configure_sudo env =
          { env := { env with safe_sudo := some .run, use_sudo := some (.bool false) } })) := by
  constructor
  · intro h
    simp [configure_sudo, h]
  · intro s hs
    constructor
    · intro hc
      simp [configure_sudo, hs, if_pos hc]
    · intro hc
      simp [configure_sudo, hs, if_neg hc]

/-- Witness for C5 at concrete flag values: unset defaults to the
privileged primitive, `"no"` selects the plain one. -/
theorem c5_witness :
    configure_sudo {} =
      { env := { safe_sudo := some .sudo, use_sudo := some (.bool true) } } ∧
    configure_sudo { use_sudo := some (.str "no") } =
      { env := { use_sudo := some (.bool false), safe_sudo := some .run } } := by
  refine ⟨(c5_sudo_policy {}).1 rfl, ?_⟩
  have h := ((c5_sudo_policy { use_sudo := some (.str "no") }).2 "no" rfl).2 (by decide)
  exact h

/-! ## Claim C6: nixpkgs overlay toggle -/

/-- C6: with the distribution tag present, the toggle enables nixpkgs
exactly when the caller set `nixpkgs` to the string `"True"` and the
distribution is Debian-family; requesting it on centos yields `False`
plus a warning and no exception, requesting it on debian yields `True`. -/
theorem c6_nixpkgs_toggle (env : Env) (d : String) (hd : env.distribution = some d) :
    ((setup_nixpkgs env).env.nixpkgs = some (.bool true) ↔
      (env.nixpkgs = some (.str "True") ∧ (d = "debian" ∨ d = "ubuntu"))) ∧
    (setup_nixpkgs { nixpkgs := some (.str "True"), distribution := some "centos" } =
      { env := { nixpkgs := some (.bool false), distribution := some "centos" },
        warns := ["NixPkgs are currently not supported for centos"] }) ∧
    ((setup_nixpkgs { nixpkgs := some (.str "True"), distribution := some "debian" }).env.nixpkgs
      = some (.bool true)) := by
  refine ⟨?_, by decide, by decide⟩
  cases hn : env.nixpkgs with
  | none => simp [setup_nixpkgs, hn]
  | some v =>
    by_cases hfam : d = "debian" ∨ d = "ubuntu"
    · by_cases hv : v = PyVal.str "True" <;>
        simp [setup_nixpkgs, hn, hd, if_pos hfam, hv, hfam]
    · simp [setup_nixpkgs, hn, hd, if_neg hfam, hfam]

/-- Witness for C6 at a concrete context: requesting nixpkgs on debian
enables it. -/
theorem c6_witness :
    (setup_nixpkgs { nixpkgs := some (.str "True"), distribution := some "debian" }).env.nixpkgs
      = some (.bool true) := by
  exact (c6_nixpkgs_toggle { nixpkgs := some (.str "True"), distribution := some "debian" }
    "debian" rfl).1.mpr ⟨rfl, Or.inl rfl⟩

/-! ## Claim C1: the non-overwrite invariant -/

/-- C1 counterexample: `python_version_ext` is pre-set to `"3.9"` and the
centos profile overwrites it to `"2.6"`, so a field already present does
not keep its prior value. -/
theorem c1_counterexample :
    (setup_centos { python_version_ext := some "3.9" }).python_version_ext ≠ some "3.9" ∧
    (setup_centos { python_version_ext := some "3.9" }).python_version_ext = some "2.6" := by
  decide

/-- C1 amended: only `java_home` is guarded by the profiles; a pre-set
`java_home` keeps its prior value after each of the four distribution
profiles runs (other pre-set fields may be overwritten). -/
theorem c1_java_home_preserved (env : Env) (j : String) (h : env.java_home = some j) :
    (setup_ubuntu env).env.java_home = some j ∧
    (setup_debian env).env.java_home = some j ∧
    (setup_centos env).java_home = some j ∧
    (setup_scientificlinux env).java_home = some j := by
  have hg : (setup_deb_general env).1.java_home = some j := by
    simp [setup_deb_general, h]
  refine ⟨?_, ?_, ?_, ?_⟩
  · simp only [setup_ubuntu]
    split
    · simpa using hg
    · split <;> simpa using hg
  · simp only [setup_debian]
    split
    · simpa using hg
    · split <;> simpa using hg
  · simp [setup_centos, h]
  · simp [setup_scientificlinux, h]

/-- Witness for C1 at the claim's concrete input: `java_home` pre-set to
`"/custom/jdk"` survives all four profiles. -/
theorem c1_witness :
    (setup_ubuntu { java_home := some "/custom/jdk", dist_name := some "precise" }).env.java_home
      = some "/custom/jdk" ∧
    (setup_debian { java_home := some "/custom/jdk", dist_name := some "precise" }).env.java_home
      = some "/custom/jdk" ∧
    (setup_centos { java_home := some "/custom/jdk", dist_name := some "precise" }).java_home
      = some "/custom/jdk" ∧
    (setup_scientificlinux
      { java_home := some "/custom/jdk", dist_name := some "precise" }).java_home
      = some "/custom/jdk" :=
  c1_java_home_preserved { java_home := some "/custom/jdk", dist_name := some "precise" }
    "/custom/jdk" rfl

/-! ## Claim C9: identity on placeholder-free source lists -/

/-- C9: the substitution helper returns placeholder-free source lists
unchanged, hence it is idempotent on them. -/
theorem c9_no_placeholder_identity (v : String) (sources : List String)
    (h : ∀ s ∈ sources, pyFind s "%s" = -1) :
    add_source_versions v sources = some sources := by
  induction sources with
  | nil => rfl
  | cons s rest ih =>
    have hs : pyFind s "%s" = -1 := h s (by simp)
    have hr : add_source_versions v rest = some rest :=
      ih (fun t ht => h t (by simp [ht]))
    simp [add_source_versions, subSource, hs, hr]

/-- Witness for C9 at the claim's concrete input. -/
theorem c9_witness :
    add_source_versions "squeeze" ["deb foo bar"] = some ["deb foo bar"] :=
  c9_no_placeholder_identity "squeeze" ["deb foo bar"] (by decide)

/-! ## String lemmas for the substitution helper -/

/-- A string with no percent character (hence no format placeholder). -/
def noPercent (s : String) : Prop := '%' ∉ s.data

instance (s : String) : Decidable (noPercent s) := by
  unfold noPercent
  infer_instance

/-- `"%s"` does not occur in a percent-free character list. -/
theorem findSubstrFrom_ps_none (l : List Char) (h : '%' ∉ l) :
    findSubstrFrom ['%', 's'] l = none := by
  induction l with
  | nil => rfl
  | cons c rest ih =>
    have hc : ('%' == c) = false := by
      simp only [beq_eq_false_iff_ne, ne_eq]
      intro hcc
      exact h (hcc ▸ List.mem_cons_self c rest)
    have hr : '%' ∉ rest := fun hx => h (List.mem_cons_of_mem c hx)
    simp [findSubstrFrom, List.isPrefixOf, hc, ih hr]

/-- The first `"%s"` in `a ++ "%s" ++ b` with `a` percent-free sits at
index `a.length`. -/
theorem findSubstrFrom_ps_append (a b : List Char) (ha : '%' ∉ a) :
    findSubstrFrom ['%', 's'] (a ++ '%' :: 's' :: b) = some a.length := by
  induction a with
  | nil => simp [findSubstrFrom, List.isPrefixOf]
  | cons c arest ih =>
    have hc : ('%' == c) = false := by
      simp only [beq_eq_false_iff_ne, ne_eq]
      intro hcc
      exact ha (hcc ▸ List.mem_cons_self c arest)
    have hr : '%' ∉ arest := fun hx => ha (List.mem_cons_of_mem c hx)
    simp [findSubstrFrom, List.isPrefixOf, hc, ih hr]

/-- One-step unfolding of `pyFormatAux` on a cons cell (the nested match
on the character after a percent makes the generated equations split on
the tail, so this single equation is proved once by cases). -/
theorem pyFormatAux_cons (v : List Char) (c : Char) (rest : List Char) (used : Bool) :
    pyFormatAux v (c :: rest) used =
      if c = '%' then
        match rest with
        | [] => none
        | c2 :: rest2 =>
          if c2 = 's' then
            if used then none else (pyFormatAux v rest2 true).map (fun t => v ++ t)
          else if c2 = '%' then
            (pyFormatAux v rest2 used).map (fun t => '%' :: t)
          else none
      else (pyFormatAux v rest used).map (fun t => c :: t) := by
  cases rest <;> rfl

/-- Formatting a percent-free character list returns it unchanged when the
argument is already consumed, and fails otherwise (Python: not all
arguments converted). -/
theorem pyFormatAux_noPct (v : List Char) (b : List Char) (used : Bool)
    (h : '%' ∉ b) :
    pyFormatAux v b used = if used then some b else none := by
  induction b generalizing used with
  | nil => cases used <;> rfl
  | cons c rest ih =>
    have hc : ¬ c = '%' := fun hcc => h (hcc ▸ List.mem_cons_self c rest)
    have hr : '%' ∉ rest := fun hx => h (List.mem_cons_of_mem c hx)
    cases used <;> simp [pyFormatAux_cons, hc, ih _ hr]

/-- Formatting `a ++ "%s" ++ b` with `a`, `b` percent-free substitutes the
single placeholder. -/
theorem pyFormatAux_append (v a b : List Char) (ha : '%' ∉ a) (hb : '%' ∉ b) :
    pyFormatAux v (a ++ '%' :: 's' :: b) false = some (a ++ v ++ b) := by
  induction a with
  | nil => simp [pyFormatAux, pyFormatAux_noPct v b true hb]
  | cons c arest ih =>
    have hc : ¬ c = '%' := fun hcc => ha (hcc ▸ List.mem_cons_self c arest)
    have hr : '%' ∉ arest := fun hx => ha (List.mem_cons_of_mem c hx)
    simp [pyFormatAux_cons, hc, ih hr]

/-- Characters of a concatenation. -/
theorem strDataAppend (s t : String) : (s ++ t).data = s.data ++ t.data := rfl

/-- `find` on a percent-free string reports no placeholder. -/
theorem psData : ("%s" : String).data = ['%', 's'] := rfl

theorem pyFind_no_pct (s : String) (h : noPercent s) : pyFind s "%s" = -1 := by
  unfold pyFind
  rw [psData, findSubstrFrom_ps_none s.data h]

/-- `find` on `a ++ "%s" ++ b` with `a` percent-free reports index
`a.length`. -/
theorem pyFind_split (a b : String) (ha : noPercent a) :
    pyFind (a ++ "%s" ++ b) "%s" = (a.length : Int) := by
  have hdata : (a ++ "%s" ++ b).data = a.data ++ '%' :: 's' :: b.data := by
    simp [strDataAppend, psData]
  unfold pyFind
  rw [psData, hdata, findSubstrFrom_ps_append a.data b.data ha]
  rfl

/-- `%`-formatting `a ++ "%s" ++ b` with `a`, `b` percent-free replaces
the placeholder with the argument. -/
theorem pyFormatS_split (a b v : String) (ha : noPercent a) (hb : noPercent b) :
    pyFormatS (a ++ "%s" ++ b) v = some (a ++ v ++ b) := by
  have hdata : (a ++ "%s" ++ b).data = a.data ++ '%' :: 's' :: b.data := by
    simp [strDataAppend]
  have hout : (a ++ v ++ b).data = a.data ++ v.data ++ b.data := by
    simp [strDataAppend]
  simp only [pyFormatS, hdata, pyFormatAux_append v.data a.data b.data ha hb,
    Option.map_some]
  refine congrArg some ?_
  apply String.ext
  simp [hout]

/-- A source template as used by this module: either no percent character
at all, or exactly one `"%s"` placeholder and no other percent. -/
def TemplateOK (s : String) : Prop :=
  noPercent s ∨ ∃ a b, s = a ++ "%s" ++ b ∧ noPercent a ∧ noPercent b

/-- Single substitution of the first `"%s"` placeholder, as the spec
describes the helper: templates without a placeholder pass through. -/
def replaceFirstPct (v s : String) : String :=
  match findSubstrFrom ['%', 's'] s.data with
  | none => s
  | some n => String.mk (s.data.take n ++ v.data ++ s.data.drop (n + 2))

/-- On an empty string the split decomposition degenerates. -/
theorem string_eq_empty_iff (a : String) : a = "" ↔ a.data = [] := by
  constructor
  · intro h
    rw [h]
  · intro h
    apply String.ext
    simpa using h

/-- The loop body substitutes exactly when the placeholder index is
positive, and then replaces the first placeholder. -/
theorem subSource_spec (v s : String) (h : TemplateOK s) :
    subSource v s = some (if pyFind s "%s" > 0 then replaceFirstPct v s else s) := by
  rcases h with h | ⟨a, b, rfl, ha, hb⟩
  · simp [subSource, pyFind_no_pct s h]
  · have hdata : (a ++ "%s" ++ b).data = a.data ++ '%' :: 's' :: b.data := by
      simp [strDataAppend]
    by_cases h0 : a = ""
    · have hlen : pyFind (a ++ "%s" ++ b) "%s" = 0 := by
        rw [pyFind_split a b ha]
        simp [String.length, (string_eq_empty_iff a).mp h0]
      simp [subSource, hlen]
    · have hne : a.data ≠ [] := fun hx => h0 ((string_eq_empty_iff a).mpr hx)
      have hpos : (0 : Int) < (a.length : Int) := by
        have : 0 < a.length := by
          simp only [String.length]
          exact List.length_pos.mpr hne
        exact_mod_cast this
      have hfind := pyFind_split a b ha
      have htake : (a.data ++ '%' :: 's' :: b.data).take a.data.length = a.data := by
        simp
      have hdrop : (a.data ++ '%' :: 's' :: b.data).drop (a.data.length + 2) = b.data := by
        have : a.data ++ '%' :: 's' :: b.data = (a.data ++ ['%', 's']) ++ b.data := by
          simp
        rw [this]
        have hlen2 : (a.data ++ ['%', 's']).length = a.data.length + 2 := by
          simp
        rw [← hlen2]
        exact List.drop_left (a.data ++ ['%', 's']) b.data
      have hrepl : replaceFirstPct v (a ++ "%s" ++ b) = a ++ v ++ b := by
        unfold replaceFirstPct
        rw [hdata, findSubstrFrom_ps_append a.data b.data ha]
        simp only [htake, hdrop]
        apply String.ext
        simp [strDataAppend]
      rw [subSource, hfind, if_pos hpos, if_pos (hfind ▸ hpos),
        pyFormatS_split a b v ha hb, hrepl]

/-- Elementwise description of `_add_source_versions` on well-formed
template lists: order preserved, each positive-index placeholder replaced
once, everything else unchanged. -/
theorem add_source_versions_spec (v : String) (sources : List String)
    (h : ∀ s ∈ sources, TemplateOK s) :
    add_source_versions v sources =
      some (sources.map (fun s => if pyFind s "%s" > 0 then replaceFirstPct v s else s)) := by
  induction sources with
  | nil => rfl
  | cons s rest ih =>
    have hs := subSource_spec v s (h s (by simp))
    have hr := ih (fun t ht => h t (by simp [ht]))
    simp [add_source_versions, hs, hr]

/-! ## Claim C3: the substitution helper -/

/-- C3 counterexample: the template `"%s universe"` contains a placeholder
(at index 0), yet the helper returns it unchanged because the code only
substitutes when `find` is strictly positive. -/
theorem c3_counterexample :
    add_source_versions "precise" ["%s universe"] = some ["%s universe"] ∧
    pyFind "%s universe" "%s" ≠ -1 := by
  decide

/-- C3 amended: for every version string and template list whose entries
hold at most one `"%s"` and no other percent character, the helper returns
a same-length, same-order list in which each template whose placeholder
sits at a positive index has it replaced by the version exactly once, and
all other templates (no placeholder, or placeholder at index 0) pass
through unchanged. -/
theorem c3_substitution_amended (v : String) (sources : List String)
    (h : ∀ s ∈ sources, TemplateOK s) :
    add_source_versions v sources =
      some (sources.map (fun s => if pyFind s "%s" > 0 then replaceFirstPct v s else s)) ∧
    (sources.map (fun s => if pyFind s "%s" > 0 then replaceFirstPct v s else s)).length
      = sources.length :=
  ⟨add_source_versions_spec v sources h, by simp⟩

/-- Witness for C3 at the spec's own example: `["deb %s universe", "deb foo"]`
with version `"precise"` yields `["deb precise universe", "deb foo"]`. -/
theorem c3_witness :
    add_source_versions "precise" ["deb %s universe", "deb foo"] =
      some ["deb precise universe", "deb foo"] := by
  have h := c3_substitution_amended "precise" ["deb %s universe", "deb foo"]
    (by
      intro s hs
      simp only [List.mem_cons, List.mem_singleton] at hs
      rcases hs with rfl | rfl | hs
      · exact Or.inr ⟨"deb ", " universe", by decide, by decide, by decide⟩
      · exact Or.inl (by decide)
      · cases hs)
  rw [h.1]
  decide

/-! ## Claim C7: the target validator -/

/-- C7: for `debian`/`ubuntu` the validator reads `/proc/version`, falls
back to `/etc/issue` exactly when the tag is missing from the first
output, and raises if and only if the (lowercased) tag occurs in neither;
for `centos`/`scientificlinux` it issues no remote read and never
raises. -/
theorem c7_target_validator (rc : String → String) (dist : String) :
    ((dist = "debian" ∨ dist = "ubuntu") →
      ((validate_target_distribution rc dist).1.isSome ↔
        (pyFind (pyLower (rc "cat /proc/version")) dist = -1 ∧
         pyFind (pyLower (rc "cat /etc/issue")) dist = -1)) ∧
      (pyFind (pyLower (rc "cat /proc/version")) dist ≠ -1 →
        (validate_target_distribution rc dist).2 = ["cat /proc/version"]) ∧
      (pyFind (pyLower (rc "cat /proc/version")) dist = -1 →
        (validate_target_distribution rc dist).2 =
          ["cat /proc/version", "cat /etc/issue"])) ∧
    ((dist = "centos" ∨ dist = "scientificlinux") →
      validate_target_distribution rc dist = (none, [])) := by
  constructor
  · intro hfam
    by_cases h1 : pyFind (pyLower (rc "cat /proc/version")) dist = -1
    · by_cases h2 : pyFind (pyLower (rc "cat /etc/issue")) dist = -1 <;>
        simp [validate_target_distribution, if_pos hfam, h1, h2]
    · simp [validate_target_distribution, if_pos hfam, h1]
  · intro hr
    have hne : ¬ (dist = "debian" ∨ dist = "ubuntu") := by
      rcases hr with rfl | rfl <;> decide
    simp [validate_target_distribution, if_neg hne]

/-- Witness for C7: with outputs lacking the tag, validation of `debian`
raises after both reads, while `centos` issues no read and does not
raise. -/
theorem c7_witness :
    (validate_target_distribution (fun _ => "x") "debian").1.isSome ∧
    (validate_target_distribution (fun _ => "x") "debian").2 =
      ["cat /proc/version", "cat /etc/issue"] ∧
    validate_target_distribution (fun _ => "x") "centos" = (none, []) := by
  refine ⟨?_, ?_, ?_⟩
  · exact ((c7_target_validator (fun _ => "x") "debian").1
      (Or.inl rfl)).1.mpr ⟨by decide, by decide⟩
  · exact ((c7_target_validator (fun _ => "x") "debian").1 (Or.inl rfl)).2.2 (by decide)
  · exact (c7_target_validator (fun _ => "x") "centos").2 (Or.inl rfl)

/-! ## Sequencing lemmas -/

/-- A step after a raised exception does not run. -/
theorem andThen_err (r : SRes) (f : Env → SRes) (e : PyErr) (h : r.err = some e) :
    r.andThen f = r := by
  simp [SRes.andThen, h]

/-- A step after a successful one runs on its environment. -/
theorem andThen_ok (r : SRes) (f : Env → SRes) (h : r.err = none) :
    r.andThen f =
      { env := (f r.env).env, warns := r.warns ++ (f r.env).warns,
        cmds := r.cmds ++ (f r.env).cmds, err := (f r.env).err } := by
  simp [SRes.andThen, h]

/-- Sequencing after a pristine result is just the step itself. -/
theorem andThen_pure (e : Env) (f : Env → SRes) :
    SRes.andThen { env := e } f = f e := by
  simp [SRes.andThen]

/-- With a non-sentinel hosts list no host resolution happens. -/
theorem dispatch_host_id (w : World) (env : Env)
    (h1 : env.hosts ≠ some ["vagrant"]) (h2 : env.hosts ≠ some ["localhost"]) :
    dispatch_host w env = { env := env } := by
  simp [dispatch_host, h1, h2]

/-- The fields of the context assigned only after profile dispatch (by the
distribution profiles and the cross-cutting adjustors), bundled. -/
def profileFields (e : Env) :=
  (e.python_version_ext, e.ruby_version_ext, e.sources_file, e.apt_preferences_file,
   e.std_sources, e.pip_cmd, e.nixpkgs, e.use_sudo, e.safe_sudo, e.install_dir,
   e.is_64bit)

/-- The vagrant resolver touches only connection-identity fields. -/
theorem vagrant_preserves (raw : String) (env : Env) :
    profileFields (setup_vagrant_environment raw env).env = profileFields env ∧
    (setup_vagrant_environment raw env).env.java_home = env.java_home := by
  unfold setup_vagrant_environment
  cases h1 : sshPairs raw with
  | error e => simp [profileFields]
  | ok cfg =>
    cases h2 : dictGet cfg "User" with
    | none => simp [h2, profileFields]
    | some u =>
      cases h3 : dictGet cfg "HostName" with
      | none => simp [h2, h3, profileFields]
      | some hn =>
        cases h4 : dictGet cfg "Port" with
        | none => simp [h2, h3, h4, profileFields]
        | some p =>
          cases h5 : dictGet cfg "IdentityFile" with
          | none => simp [h2, h3, h4, h5, profileFields]
          | some kf => simp [h2, h3, h4, h5, profileFields]

/-- The local resolver touches only `user` and `java_home`. -/
theorem local_preserves (oe : String → Option String) (env : Env) :
    profileFields (setup_local_environment oe env).env = profileFields env := by
  unfold setup_local_environment
  cases h1 : env.user with
  | some u =>
    by_cases hj : env.java_home = none <;>
      simp [profileFields, hj, Option.isNone_iff_eq_none]
  | none =>
    cases h2 : oe "USER" with
    | none => simp [h2, profileFields]
    | some u =>
      by_cases hj : env.java_home = none <;>
        simp [profileFields, hj, Option.isNone_iff_eq_none]

/-- Host resolution never assigns a post-dispatch field, and touches
`java_home` only through the local resolver. -/
theorem dispatch_host_preserves (w : World) (env : Env) :
    profileFields (dispatch_host w env).env = profileFields env ∧
    (env.hosts ≠ some ["localhost"] →
      (dispatch_host w env).env.java_home = env.java_home) := by
  by_cases h1 : env.hosts = some ["vagrant"]
  · constructor
    · simpa [dispatch_host, h1] using (vagrant_preserves w.vagrantSshConfig env).1
    · intro _
      simpa [dispatch_host, h1] using (vagrant_preserves w.vagrantSshConfig env).2
  · by_cases h2 : env.hosts = some ["localhost"]
    · constructor
      · simpa [dispatch_host, h1, h2] using (local_preserves w.osEnv env)
      · intro hc
        exact absurd h2 hc
    · simp [dispatch_host, h1, h2]

/-! ## Claim C2: unknown distribution tag -/

/-- C2: with host resolution succeeding and an unrecognized distribution
tag, the dispatcher raises a `ValueError` carrying the tag, and every
field assigned only after profile dispatch is exactly as before the call
(`java_home` too, unless the local resolver filled it for sentinel hosts
`["localhost"]`). -/
theorem c2_unknown_distribution_aborts (w : World) (env : Env) (d : String)
    (hd : env.distribution = some d)
    (h1 : d ≠ "ubuntu") (h2 : d ≠ "centos") (h3 : d ≠ "scientificlinux")
    (h4 : d ≠ "debian")
    (hhost : (dispatch_host w env).err = none) :
    (setup_distribution_environment w env).err =
      some (.valueError ("Unexpected distribution " ++ d)) ∧
    profileFields (setup_distribution_environment w env).env = profileFields env ∧
    (env.hosts ≠ some ["localhost"] →
      (setup_distribution_environment w env).env.java_home = env.java_home) := by
  have hprof : dispatch_profile d (dispatch_host w env).env =
      { env := (dispatch_host w env).env,
        err := some (.valueError ("Unexpected distribution " ++ d)) } := by
    simp [dispatch_profile, h1, h2, h3, h4]
  have hstep : (dispatch_host w env).andThen (dispatch_profile d) =
      { env := (dispatch_host w env).env,
        warns := (dispatch_host w env).warns,
        cmds := (dispatch_host w env).cmds,
        err := some (.valueError ("Unexpected distribution " ++ d)) } := by
    rw [andThen_ok _ _ hhost, hprof]
    simp
  have hmain : setup_distribution_environment w env =
      finish_setup w d ((dispatch_host w env).andThen (dispatch_profile d)) := by
    simp [setup_distribution_environment, hd]
  have hfin : finish_setup w d ((dispatch_host w env).andThen (dispatch_profile d)) =
      { env := (dispatch_host w env).env,
        warns := (dispatch_host w env).warns,
        cmds := (dispatch_host w env).cmds,
        err := some (.valueError ("Unexpected distribution " ++ d)) } := by
    unfold finish_setup
    rw [hstep]
    repeat rw [andThen_err _ _ _ rfl]
  rw [hmain, hfin]
  exact ⟨rfl, (dispatch_host_preserves w env).1,
    fun hh => (dispatch_host_preserves w env).2 hh⟩

/-- Witness for C2 at the tag `"fedora"` with plain hosts: the dispatcher
raises the configuration error carrying the tag, leaving the profile
fields and `java_home` untouched. -/
theorem c2_witness :
    (setup_distribution_environment
      { runCmd := fun _ => "", osEnv := fun _ => none, vagrantSshConfig := "" }
      { distribution := some "fedora", hosts := some ["myhost"] }).err =
        some (.valueError ("Unexpected distribution " ++ "fedora")) ∧
    profileFields (setup_distribution_environment
      { runCmd := fun _ => "", osEnv := fun _ => none, vagrantSshConfig := "" }
      { distribution := some "fedora", hosts := some ["myhost"] }).env =
      profileFields { distribution := some "fedora", hosts := some ["myhost"] } ∧
    (({ distribution := some "fedora", hosts := some ["myhost"] } : Env).hosts
        ≠ some ["localhost"] →
      (setup_distribution_environment
        { runCmd := fun _ => "", osEnv := fun _ => none, vagrantSshConfig := "" }
        { distribution := some "fedora", hosts := some ["myhost"] }).env.java_home =
        ({ distribution := some "fedora", hosts := some ["myhost"] } : Env).java_home) :=
  c2_unknown_distribution_aborts
    { runCmd := fun _ => "", osEnv := fun _ => none, vagrantSshConfig := "" }
    { distribution := some "fedora", hosts := some ["myhost"] } "fedora"
    rfl (by decide) (by decide) (by decide) (by decide) (by decide)

/-! ## Field preservation through the adjustor pipeline -/

/-- The profile-assigned interpreter/runtime fields, tracked through the
adjustors that run after profile dispatch. -/
def coreFields (e : Env) :=
  (e.java_home, e.python_version_ext, e.ruby_version_ext, e.pip_cmd)

/-- The fields assigned only by the post-profile adjustors. -/
def adjustorFields (e : Env) :=
  (e.install_dir, e.nixpkgs, e.use_sudo, e.safe_sudo, e.is_64bit, e.system_install)

/-- The compatibility shim leaves the core fields alone. -/
theorem cloudman_core (e : Env) :
    coreFields (cloudman_compatibility e).env = coreFields e := by
  cases h : e.system_install <;> simp [cloudman_compatibility, h, coreFields]

/-- The nixpkgs toggle leaves the core fields alone. -/
theorem nixpkgs_core (e : Env) : coreFields (setup_nixpkgs e).env = coreFields e := by
  unfold setup_nixpkgs
  cases h1 : e.nixpkgs with
  | none => simp [coreFields]
  | some v =>
    cases h2 : e.distribution with
    | none => simp [coreFields]
    | some dd =>
      by_cases hf : dd = "debian" ∨ dd = "ubuntu" <;> simp [coreFields, hf]

/-- The sudo selector leaves the core fields alone. -/
theorem sudo_core (e : Env) : coreFields (configure_sudo e).env = coreFields e := by
  unfold configure_sudo
  cases h1 : e.use_sudo with
  | none => simp [coreFields]
  | some v =>
    cases v with
    | str s =>
      by_cases hf : pyLower s = "true" ∨ pyLower s = "yes" <;> simp [coreFields, hf]
    | bool b => simp [coreFields]

/-- Sequencing a core-preserving step preserves the core fields. -/
theorem andThen_core (r : SRes) (f : Env → SRes)
    (hf : ∀ e, coreFields (f e).env = coreFields e) :
    coreFields (r.andThen f).env = coreFields r.env := by
  cases h : r.err with
  | some e => rw [andThen_err r f e h]
  | none =>
    rw [andThen_ok r f h]
    exact hf r.env

/-- The whole post-profile pipeline preserves the core fields. -/
theorem finish_core (w : World) (d : String) (r : SRes) :
    coreFields (finish_setup w d r).env = coreFields r.env := by
  unfold finish_setup
  rw [andThen_core _ _ (fun e => rfl)]
  rw [andThen_core _ _ sudo_core]
  rw [andThen_core _ _ nixpkgs_core]
  rw [andThen_core _ _ cloudman_core]
  rw [andThen_core _ _ (fun e => rfl)]

/-! ## Field behavior of the four profiles -/

/-- Fields assigned (or preserved) by the shared Debian base. -/
theorem deb_general_fields (env : Env) :
    (setup_deb_general env).1.python_version_ext = some "" ∧
    (setup_deb_general env).1.ruby_version_ext = some "1.9.1" ∧
    (setup_deb_general env).1.java_home =
      (if env.java_home = none then some "/usr/lib/jvm/java-6-openjdk"
       else env.java_home) ∧
    (setup_deb_general env).1.dist_name = env.dist_name ∧
    (setup_deb_general env).1.pip_cmd = env.pip_cmd := by
  by_cases hj : env.java_home = none <;>
    simp [setup_deb_general, hj, Option.isNone_iff_eq_none]

/-- The Debian base does not touch the adjustor-owned fields. -/
theorem deb_general_adjustors (env : Env) :
    adjustorFields (setup_deb_general env).1 = adjustorFields env := by
  by_cases hj : env.java_home = none <;>
    simp [setup_deb_general, hj, Option.isNone_iff_eq_none, adjustorFields]

/-- The ubuntu profile only adds `std_sources` on top of the Debian base. -/
theorem setup_ubuntu_shape (env : Env) :
    (setup_ubuntu env).env = (setup_deb_general env).1 ∨
    ∃ final, (setup_ubuntu env).env =
      { (setup_deb_general env).1 with std_sources := some final } := by
  simp only [setup_ubuntu]
  split
  · exact Or.inl rfl
  · split
    · exact Or.inl rfl
    · exact Or.inr ⟨_, rfl⟩

/-- The debian profile only adds `std_sources` on top of the Debian base. -/
theorem setup_debian_shape (env : Env) :
    (setup_debian env).env = (setup_deb_general env).1 ∨
    ∃ final, (setup_debian env).env =
      { (setup_deb_general env).1 with std_sources := some final } := by
  simp only [setup_debian]
  split
  · exact Or.inl rfl
  · split
    · exact Or.inl rfl
    · exact Or.inr ⟨_, rfl⟩

/-- Interpreter and Java fields after the ubuntu profile. -/
theorem setup_ubuntu_fields (env : Env) :
    (setup_ubuntu env).env.python_version_ext = some "" ∧
    (setup_ubuntu env).env.ruby_version_ext = some "1.9.1" ∧
    (setup_ubuntu env).env.java_home =
      (if env.java_home = none then some "/usr/lib/jvm/java-6-openjdk"
       else env.java_home) ∧
    (setup_ubuntu env).env.pip_cmd = env.pip_cmd := by
  have h := deb_general_fields env
  rcases setup_ubuntu_shape env with hs | ⟨final, hs⟩ <;> rw [hs] <;>
    exact ⟨h.1, h.2.1, h.2.2.1, h.2.2.2.2⟩

/-- Interpreter and Java fields after the debian profile. -/
theorem setup_debian_fields (env : Env) :
    (setup_debian env).env.python_version_ext = some "" ∧
    (setup_debian env).env.ruby_version_ext = some "1.9.1" ∧
    (setup_debian env).env.java_home =
      (if env.java_home = none then some "/usr/lib/jvm/java-6-openjdk"
       else env.java_home) ∧
    (setup_debian env).env.pip_cmd = env.pip_cmd := by
  have h := deb_general_fields env
  rcases setup_debian_shape env with hs | ⟨final, hs⟩ <;> rw [hs] <;>
    exact ⟨h.1, h.2.1, h.2.2.1, h.2.2.2.2⟩

/-- The ubuntu profile does not touch the adjustor-owned fields. -/
theorem setup_ubuntu_adjustors (env : Env) :
    adjustorFields (setup_ubuntu env).env = adjustorFields env := by
  rcases setup_ubuntu_shape env with hs | ⟨final, hs⟩ <;> rw [hs] <;>
    exact deb_general_adjustors env

/-- The debian profile does not touch the adjustor-owned fields. -/
theorem setup_debian_adjustors (env : Env) :
    adjustorFields (setup_debian env).env = adjustorFields env := by
  rcases setup_debian_shape env with hs | ⟨final, hs⟩ <;> rw [hs] <;>
    exact deb_general_adjustors env

/-- Fields after the centos profile. -/
theorem setup_centos_fields (env : Env) :
    (setup_centos env).python_version_ext = some "2.6" ∧
    (setup_centos env).ruby_version_ext = some "" ∧
    (setup_centos env).java_home =
      (if env.java_home = none then some "/etc/alternatives/java_sdk"
       else env.java_home) ∧
    (setup_centos env).pip_cmd = env.pip_cmd ∧
    adjustorFields (setup_centos env) = adjustorFields env := by
  by_cases hj : env.java_home = none <;>
    simp [setup_centos, hj, Option.isNone_iff_eq_none, adjustorFields]

/-- Fields after the scientificlinux profile: the interpreter version
fields are left untouched. -/
theorem setup_scientificlinux_fields (env : Env) :
    (setup_scientificlinux env).python_version_ext = env.python_version_ext ∧
    (setup_scientificlinux env).ruby_version_ext = env.ruby_version_ext ∧
    (setup_scientificlinux env).java_home =
      (if env.java_home = none then some "/etc/alternatives/java_sdk"
       else env.java_home) ∧
    (setup_scientificlinux env).pip_cmd = some "pip-python" ∧
    adjustorFields (setup_scientificlinux env) = adjustorFields env := by
  by_cases hj : env.java_home = none <;>
    simp [setup_scientificlinux, hj, Option.isNone_iff_eq_none, adjustorFields]

/-- Guarded Java defaults always leave the field set. -/
theorem isSome_if_java (o : Option String) (dflt : String) :
    (if o = none then some dflt else o).isSome = true := by
  cases o <;> simp

/-! ## Well-formedness of the concrete template lists -/

/-- Boolean check that a character list holds no percent up to an optional
single `"%s"` placeholder. -/
def templateOkB : List Char → Bool
  | [] => true
  | c :: rest =>
    if c = '%' then
      match rest with
      | [] => false
      | c2 :: rest2 => if c2 = 's' then decide ('%' ∉ rest2) else false
    else templateOkB rest

/-- One-step unfolding of `templateOkB` on a cons cell. -/
theorem templateOkB_cons (c : Char) (rest : List Char) :
    templateOkB (c :: rest) =
      if c = '%' then
        match rest with
        | [] => false
        | c2 :: rest2 => if c2 = 's' then decide ('%' ∉ rest2) else false
      else templateOkB rest := by
  cases rest <;> rfl

/-- Soundness of the checker on character lists. -/
theorem templateOkB_sound_aux (l : List Char) (h : templateOkB l = true) :
    ('%' ∉ l) ∨ ∃ a b, l = a ++ '%' :: 's' :: b ∧ '%' ∉ a ∧ '%' ∉ b := by
  induction l with
  | nil => exact Or.inl (by simp)
  | cons c rest ih =>
    by_cases hc : c = '%'
    · subst hc
      rw [templateOkB_cons, if_pos rfl] at h
      cases rest with
      | nil => exact Bool.noConfusion h
      | cons c2 rest2 =>
        have h2 : (if c2 = 's' then decide ('%' ∉ rest2) else false) = true := h
        by_cases hc2 : c2 = 's'
        · subst hc2
          rw [if_pos rfl] at h2
          exact Or.inr ⟨[], rest2, by simp, by simp, of_decide_eq_true h2⟩
        · simp [hc2] at h2
    · rw [templateOkB_cons, if_neg hc] at h
      rcases ih h with hl | ⟨a, b, heq, ha, hb⟩
      · refine Or.inl ?_
        simp only [List.mem_cons, not_or]
        exact ⟨fun hx => hc hx.symm, hl⟩
      · refine Or.inr ⟨c :: a, b, by simp [heq], ?_, hb⟩
        simp only [List.mem_cons, not_or]
        exact ⟨fun hx => hc hx.symm, ha⟩

/-- Soundness of the checker: a checked string is a valid template. -/
theorem templateOk_of_b (s : String) (h : templateOkB s.data = true) :
    TemplateOK s := by
  rcases templateOkB_sound_aux s.data h with hl | ⟨a, b, heq, ha, hb⟩
  · exact Or.inl hl
  · refine Or.inr ⟨String.mk a, String.mk b, ?_, ha, hb⟩
    apply String.ext
    simp [strDataAppend, psData, heq]

/-- The ubuntu profile succeeds whenever `dist_name` is present: all its
templates are well formed, so version substitution cannot raise. -/
theorem setup_ubuntu_ok (env : Env) (nm : String) (hdn : env.dist_name = some nm) :
    (setup_ubuntu env).err = none := by
  have hdn2 : (setup_deb_general env).1.dist_name = some nm := by
    rw [(deb_general_fields env).2.2.2.1, hdn]
  have hok : ∀ s ∈ ([
      "deb http://au.archive.ubuntu.com/ubuntu/ %s universe",
      "deb http://au.archive.ubuntu.com/ubuntu/ %s multiverse",
      "deb http://au.archive.ubuntu.com/ubuntu/ %s-updates universe",
      "deb http://au.archive.ubuntu.com/ubuntu/ %s-updates multiverse",
      "deb http://archive.canonical.com/ubuntu %s partner",
      "deb http://downloads-distro.mongodb.org/repo/ubuntu-upstart dist 10gen",
      "deb http://cran.ms.unimelb.edu.au/bin/linux/ubuntu %s/",
      "deb http://archive.cloudera.com/debian maverick-cdh3 contrib",
      "deb http://archive.canonical.com/ubuntu %s partner",
      "deb http://ppa.launchpad.net/freenx-team/ppa/ubuntu %s main"] ++
      (setup_deb_general env).2), TemplateOK s := by
    intro s hs
    rw [show (setup_deb_general env).2 =
      ["deb http://nebc.nox.ac.uk/bio-linux/ unstable bio-linux",
       "deb http://download.virtualbox.org/virtualbox/debian %s contrib"] from rfl] at hs
    simp only [List.cons_append, List.nil_append, List.mem_cons,
      List.not_mem_nil, or_false] at hs
    rcases hs with rfl | rfl | rfl | rfl | rfl | rfl | rfl | rfl | rfl | rfl | rfl | rfl <;>
      exact templateOk_of_b _ (by decide)
  obtain ⟨out, hout⟩ : ∃ out, add_source_versions nm ([
      "deb http://au.archive.ubuntu.com/ubuntu/ %s universe",
      "deb http://au.archive.ubuntu.com/ubuntu/ %s multiverse",
      "deb http://au.archive.ubuntu.com/ubuntu/ %s-updates universe",
      "deb http://au.archive.ubuntu.com/ubuntu/ %s-updates multiverse",
      "deb http://archive.canonical.com/ubuntu %s partner",
      "deb http://downloads-distro.mongodb.org/repo/ubuntu-upstart dist 10gen",
      "deb http://cran.ms.unimelb.edu.au/bin/linux/ubuntu %s/",
      "deb http://archive.cloudera.com/debian maverick-cdh3 contrib",
      "deb http://archive.canonical.com/ubuntu %s partner",
      "deb http://ppa.launchpad.net/freenx-team/ppa/ubuntu %s main"] ++
      (setup_deb_general env).2) = some out :=
    ⟨_, add_source_versions_spec nm _ hok⟩
  simp only [setup_ubuntu, hdn2, hout]

/-- The debian profile succeeds whenever `dist_name` is present. -/
theorem setup_debian_ok (env : Env) (nm : String) (hdn : env.dist_name = some nm) :
    (setup_debian env).err = none := by
  have hdn2 : (setup_deb_general env).1.dist_name = some nm := by
    rw [(deb_general_fields env).2.2.2.1, hdn]
  have hok : ∀ s ∈ ([
      "deb http://downloads-distro.mongodb.org/repo/debian-sysvinit dist 10gen",
      "deb http://cran.stat.ucla.edu/bin/linux/debian %s-cran/",
      "deb http://archive.cloudera.com/debian lenny-cdh3 contrib"] ++
      (setup_deb_general env).2), TemplateOK s := by
    intro s hs
    rw [show (setup_deb_general env).2 =
      ["deb http://nebc.nox.ac.uk/bio-linux/ unstable bio-linux",
       "deb http://download.virtualbox.org/virtualbox/debian %s contrib"] from rfl] at hs
    simp only [List.cons_append, List.nil_append, List.mem_cons,
      List.not_mem_nil, or_false] at hs
    rcases hs with rfl | rfl | rfl | rfl | rfl <;>
      exact templateOk_of_b _ (by decide)
  obtain ⟨out, hout⟩ : ∃ out, add_source_versions nm ([
      "deb http://downloads-distro.mongodb.org/repo/debian-sysvinit dist 10gen",
      "deb http://cran.stat.ucla.edu/bin/linux/debian %s-cran/",
      "deb http://archive.cloudera.com/debian lenny-cdh3 contrib"] ++
      (setup_deb_general env).2) = some out :=
    ⟨_, add_source_versions_spec nm _ hok⟩
  simp only [setup_debian, hdn2, hout]

/-! ## Dispatcher plumbing for recognized tags -/

/-- With plain (non-sentinel) hosts the dispatcher is profile dispatch
followed by the adjustor pipeline. -/
theorem dispatcher_plain (w : World) (env : Env) (d : String)
    (hd : env.distribution = some d)
    (hh1 : env.hosts ≠ some ["vagrant"]) (hh2 : env.hosts ≠ some ["localhost"]) :
    setup_distribution_environment w env = finish_setup w d (dispatch_profile d env) := by
  simp [setup_distribution_environment, hd, dispatch_host_id w env hh1 hh2, andThen_pure]

/-- The validator passes issuing one read when the tag occurs in
`/proc/version`. -/
theorem validator_pass (rc : String → String) (d : String)
    (hfam : d = "debian" ∨ d = "ubuntu")
    (h : pyFind (pyLower (rc "cat /proc/version")) d ≠ -1) :
    validate_target_distribution rc d = (none, ["cat /proc/version"]) := by
  simp [validate_target_distribution, hfam, h]

/-- The validator does nothing outside the Debian family. -/
theorem validator_skip (rc : String → String) (d : String)
    (hne : ¬ (d = "debian" ∨ d = "ubuntu")) :
    validate_target_distribution rc d = (none, []) := by
  simp [validate_target_distribution, hne]

/-- When `system_install` is absent and validation passes, the pipeline
stops at the compatibility shim with an attribute error, after the
validator's remote reads, leaving the environment as the profile left
it. -/
theorem finish_aborts_at_shim (w : World) (d : String) (r : SRes)
    (hr : r.err = none) (hsys : r.env.system_install = none)
    (hval : (validate_target_distribution w.runCmd d).1 = none) :
    finish_setup w d r =
      { env := r.env, warns := r.warns,
        cmds := r.cmds ++ (validate_target_distribution w.runCmd d).2,
        err := some (.attributeError "system_install") } := by
  unfold finish_setup
  have s1 : r.andThen (fun env =>
      let v := validate_target_distribution w.runCmd d
      { env := env, cmds := v.2, err := v.1 }) =
      { env := r.env, warns := r.warns,
        cmds := r.cmds ++ (validate_target_distribution w.runCmd d).2,
        err := none } := by
    rw [andThen_ok _ _ hr]
    simp [hval]
  rw [s1]
  have s2 :
      ({ env := r.env, warns := r.warns,
         cmds := r.cmds ++ (validate_target_distribution w.runCmd d).2,
         err := none } : SRes).andThen cloudman_compatibility =
      { env := r.env, warns := r.warns,
        cmds := r.cmds ++ (validate_target_distribution w.runCmd d).2,
        err := some (.attributeError "system_install") } := by
    rw [andThen_ok _ _ rfl]
    simp [cloudman_compatibility, hsys]
  rw [s2]
  repeat rw [andThen_err _ _ _ rfl]

/-! ## Claim C4: fields produced by the dispatcher -/

/-- C4 counterexample: a complete, successful ubuntu run leaves
`python_version_ext` equal to the empty string, which is not a non-empty
field as the claim requires. -/
theorem c4_counterexample :
    (setup_distribution_environment
      { runCmd := fun _ => "Linux version ubuntu x86_64", osEnv := fun _ => none,
        vagrantSshConfig := "" }
      { distribution := some "ubuntu", dist_name := some "precise",
        hosts := some ["myhost"], system_install := some "/usr" }).err = none ∧
    (setup_distribution_environment
      { runCmd := fun _ => "Linux version ubuntu x86_64", osEnv := fun _ => none,
        vagrantSshConfig := "" }
      { distribution := some "ubuntu", dist_name := some "precise",
        hosts := some ["myhost"], system_install := some "/usr" }).env.python_version_ext
      = some "" := by
  decide

/-- C4 amended: with plain hosts, ubuntu and debian set
`python_version_ext` to the empty string and `ruby_version_ext` to
`"1.9.1"`; centos sets `"2.6"` and the empty string; scientificlinux sets
neither interpreter field (it only sets `pip_cmd`); all four leave
`java_home` set, preserving a pre-set value. -/
theorem c4_dispatcher_fields (w : World) (env : Env) (d : String)
    (hd : env.distribution = some d)
    (hh1 : env.hosts ≠ some ["vagrant"]) (hh2 : env.hosts ≠ some ["localhost"]) :
    ((d = "ubuntu" ∨ d = "debian") →
      (setup_distribution_environment w env).env.python_version_ext = some "" ∧
      (setup_distribution_environment w env).env.ruby_version_ext = some "1.9.1" ∧
      (setup_distribution_environment w env).env.java_home.isSome = true) ∧
    (d = "centos" →
      (setup_distribution_environment w env).env.python_version_ext = some "2.6" ∧
      (setup_distribution_environment w env).env.ruby_version_ext = some "" ∧
      (setup_distribution_environment w env).env.java_home.isSome = true) ∧
    (d = "scientificlinux" →
      (setup_distribution_environment w env).env.python_version_ext
        = env.python_version_ext ∧
      (setup_distribution_environment w env).env.ruby_version_ext
        = env.ruby_version_ext ∧
      (setup_distribution_environment w env).env.pip_cmd = some "pip-python" ∧
      (setup_distribution_environment w env).env.java_home.isSome = true) ∧
    ((d = "ubuntu" ∨ d = "debian" ∨ d = "centos" ∨ d = "scientificlinux") →
      ∀ j, env.java_home = some j →
        (setup_distribution_environment w env).env.java_home = some j) := by
  rw [dispatcher_plain w env d hd hh1 hh2]
  have hcore := finish_core w d (dispatch_profile d env)
  simp only [coreFields, Prod.mk.injEq] at hcore
  obtain ⟨hJ, hP, hR, hPip⟩ := hcore
  refine ⟨?_, ?_, ?_, ?_⟩
  · rintro (rfl | rfl)
    · have hprof : dispatch_profile "ubuntu" env = setup_ubuntu env := by
        simp [dispatch_profile]
      rw [hprof] at hJ hP hR ⊢
      have hf := setup_ubuntu_fields env
      refine ⟨hP.trans hf.1, hR.trans hf.2.1, ?_⟩
      rw [hJ, hf.2.2.1]
      exact isSome_if_java env.java_home _
    · have hprof : dispatch_profile "debian" env = setup_debian env := by
        simp [dispatch_profile]
      rw [hprof] at hJ hP hR ⊢
      have hf := setup_debian_fields env
      refine ⟨hP.trans hf.1, hR.trans hf.2.1, ?_⟩
      rw [hJ, hf.2.2.1]
      exact isSome_if_java env.java_home _
  · rintro rfl
    have hprof : dispatch_profile "centos" env = { env := setup_centos env } := by
      simp [dispatch_profile]
    rw [hprof] at hJ hP hR ⊢
    have hf := setup_centos_fields env
    refine ⟨hP.trans hf.1, hR.trans hf.2.1, ?_⟩
    rw [hJ]
    show (setup_centos env).java_home.isSome = true
    rw [hf.2.2.1]
    exact isSome_if_java env.java_home _
  · rintro rfl
    have hprof : dispatch_profile "scientificlinux" env =
        { env := setup_scientificlinux env } := by
      simp [dispatch_profile]
    rw [hprof] at hJ hP hR hPip ⊢
    have hf := setup_scientificlinux_fields env
    refine ⟨hP.trans hf.1, hR.trans hf.2.1, hPip.trans hf.2.2.2.1, ?_⟩
    rw [hJ]
    show (setup_scientificlinux env).java_home.isSome = true
    rw [hf.2.2.1]
    exact isSome_if_java env.java_home _
  · rintro (rfl | rfl | rfl | rfl) <;> intro j hj
    · have hprof : dispatch_profile "ubuntu" env = setup_ubuntu env := by
        simp [dispatch_profile]
      rw [hprof] at hJ ⊢
      rw [hJ, (setup_ubuntu_fields env).2.2.1]
      simp [hj]
    · have hprof : dispatch_profile "debian" env = setup_debian env := by
        simp [dispatch_profile]
      rw [hprof] at hJ ⊢
      rw [hJ, (setup_debian_fields env).2.2.1]
      simp [hj]
    · have hprof : dispatch_profile "centos" env = { env := setup_centos env } := by
        simp [dispatch_profile]
      rw [hprof] at hJ ⊢
      rw [hJ]
      show (setup_centos env).java_home = some j
      rw [(setup_centos_fields env).2.2.1]
      simp [hj]
    · have hprof : dispatch_profile "scientificlinux" env =
        { env := setup_scientificlinux env } := by
        simp [dispatch_profile]
      rw [hprof] at hJ ⊢
      rw [hJ]
      show (setup_scientificlinux env).java_home = some j
      rw [(setup_scientificlinux_fields env).2.2.1]
      simp [hj]

/-- Witness for C4 on a concrete centos context with a pre-set Java
home. -/
theorem c4_witness :
    ((("centos" : String) = "ubuntu" ∨ ("centos" : String) = "debian") →
      (setup_distribution_environment
        { runCmd := fun _ => "", osEnv := fun _ => none, vagrantSshConfig := "" }
        { distribution := some "centos", hosts := some ["myhost"],
          java_home := some "/custom/jdk" }).env.python_version_ext = some "" ∧
      (setup_distribution_environment
        { runCmd := fun _ => "", osEnv := fun _ => none, vagrantSshConfig := "" }
        { distribution := some "centos", hosts := some ["myhost"],
          java_home := some "/custom/jdk" }).env.ruby_version_ext = some "1.9.1" ∧
      (setup_distribution_environment
        { runCmd := fun _ => "", osEnv := fun _ => none, vagrantSshConfig := "" }
        { distribution := some "centos", hosts := some ["myhost"],
          java_home := some "/custom/jdk" }).env.java_home.isSome = true) ∧
    (("centos" : String) = "centos" →
      (setup_distribution_environment
        { runCmd := fun _ => "", osEnv := fun _ => none, vagrantSshConfig := "" }
        { distribution := some "centos", hosts := some ["myhost"],
          java_home := some "/custom/jdk" }).env.python_version_ext = some "2.6" ∧
      (setup_distribution_environment
        { runCmd := fun _ => "", osEnv := fun _ => none, vagrantSshConfig := "" }
        { distribution := some "centos", hosts := some ["myhost"],
          java_home := some "/custom/jdk" }).env.ruby_version_ext = some "" ∧
      (setup_distribution_environment
        { runCmd := fun _ => "", osEnv := fun _ => none, vagrantSshConfig := "" }
        { distribution := some "centos", hosts := some ["myhost"],
          java_home := some "/custom/jdk" }).env.java_home.isSome = true) ∧
    (("centos" : String) = "scientificlinux" →
      (setup_distribution_environment
        { runCmd := fun _ => "", osEnv := fun _ => none, vagrantSshConfig := "" }
        { distribution := some "centos", hosts := some ["myhost"],
          java_home := some "/custom/jdk" }).env.python_version_ext =
        ({ distribution := some "centos", hosts := some ["myhost"],
           java_home := some "/custom/jdk" } : Env).python_version_ext ∧
      (setup_distribution_environment
        { runCmd := fun _ => "", osEnv := fun _ => none, vagrantSshConfig := "" }
        { distribution := some "centos", hosts := some ["myhost"],
          java_home := some "/custom/jdk" }).env.ruby_version_ext =
        ({ distribution := some "centos", hosts := some ["myhost"],
           java_home := some "/custom/jdk" } : Env).ruby_version_ext ∧
      (setup_distribution_environment
        { runCmd := fun _ => "", osEnv := fun _ => none, vagrantSshConfig := "" }
        { distribution := some "centos", hosts := some ["myhost"],
          java_home := some "/custom/jdk" }).env.pip_cmd = some "pip-python" ∧
      (setup_distribution_environment
        { runCmd := fun _ => "", osEnv := fun _ => none, vagrantSshConfig := "" }
        { distribution := some "centos", hosts := some ["myhost"],
          java_home := some "/custom/jdk" }).env.java_home.isSome = true) ∧
    ((("centos" : String) = "ubuntu" ∨ ("centos" : String) = "debian" ∨
      ("centos" : String) = "centos" ∨ ("centos" : String) = "scientificlinux") →
      ∀ j, ({ distribution := some "centos", hosts := some ["myhost"],
              java_home := some "/custom/jdk" } : Env).java_home = some j →
        (setup_distribution_environment
          { runCmd := fun _ => "", osEnv := fun _ => none, vagrantSshConfig := "" }
          { distribution := some "centos", hosts := some ["myhost"],
            java_home := some "/custom/jdk" }).env.java_home = some j) :=
  c4_dispatcher_fields
    { runCmd := fun _ => "", osEnv := fun _ => none, vagrantSshConfig := "" }
    { distribution := some "centos", hosts := some ["myhost"],
      java_home := some "/custom/jdk" } "centos" rfl (by decide) (by decide)

/-! ## Claim C10: system_install is effectively required -/

/-- C10: for a recognized tag with plain hosts, a present `dist_name`,
and a passing validator, a missing `system_install` makes the pass abort
at the compatibility shim with an attribute error — after the profile has
already mutated the context (`java_home` is set) — leaving `install_dir`
and every later adjustor field untouched; and whenever `system_install`
is present the shim copies it into `install_dir`. -/
theorem c10_system_install_required (w : World) (env : Env) (d : String)
    (hd : env.distribution = some d)
    (hsys : env.system_install = none)
    (hh1 : env.hosts ≠ some ["vagrant"]) (hh2 : env.hosts ≠ some ["localhost"])
    (hdn : env.dist_name.isSome = true)
    (hvalid : (d = "ubuntu" ∨ d = "debian") →
      pyFind (pyLower (w.runCmd "cat /proc/version")) d ≠ -1)
    (hfour : d = "ubuntu" ∨ d = "centos" ∨ d = "scientificlinux" ∨ d = "debian") :
    (setup_distribution_environment w env).err
      = some (.attributeError "system_install") ∧
    (setup_distribution_environment w env).env.install_dir = env.install_dir ∧
    (setup_distribution_environment w env).env.java_home.isSome = true ∧
    (setup_distribution_environment w env).env.nixpkgs = env.nixpkgs ∧
    (setup_distribution_environment w env).env.use_sudo = env.use_sudo ∧
    (setup_distribution_environment w env).env.safe_sudo = env.safe_sudo ∧
    (setup_distribution_environment w env).env.is_64bit = env.is_64bit ∧
    (∀ e si, e.system_install = some si →
      (cloudman_compatibility e).env.install_dir = some si) := by
  obtain ⟨nm, hnm⟩ := Option.isSome_iff_exists.mp hdn
  rw [dispatcher_plain w env d hd hh1 hh2]
  rcases hfour with rfl | rfl | rfl | rfl
  · have hprof : dispatch_profile "ubuntu" env = setup_ubuntu env := by
      simp [dispatch_profile]
    rw [hprof]
    have hadj := setup_ubuntu_adjustors env
    simp only [adjustorFields, Prod.mk.injEq] at hadj
    obtain ⟨hI, hN, hU, hS, hB, hSys⟩ := hadj
    have hval := validator_pass w.runCmd "ubuntu" (Or.inr rfl) (hvalid (Or.inl rfl))
    rw [finish_aborts_at_shim w "ubuntu" (setup_ubuntu env)
      (setup_ubuntu_ok env nm hnm) (hSys.trans hsys) (by rw [hval])]
    refine ⟨rfl, hI, ?_, hN, hU, hS, hB,
      fun e si h => by simp [cloudman_compatibility, h]⟩
    rw [(setup_ubuntu_fields env).2.2.1]
    exact isSome_if_java env.java_home _
  · have hprof : dispatch_profile "centos" env = { env := setup_centos env } := by
      simp [dispatch_profile]
    rw [hprof]
    have hadj := (setup_centos_fields env).2.2.2.2
    simp only [adjustorFields, Prod.mk.injEq] at hadj
    obtain ⟨hI, hN, hU, hS, hB, hSys⟩ := hadj
    have hval := validator_skip w.runCmd "centos" (by decide)
    have habort := finish_aborts_at_shim w "centos"
      { env := setup_centos env } rfl (hSys.trans hsys) (by rw [hval])
    rw [habort]
    refine ⟨rfl, hI, ?_, hN, hU, hS, hB,
      fun e si h => by simp [cloudman_compatibility, h]⟩
    show (setup_centos env).java_home.isSome = true
    rw [(setup_centos_fields env).2.2.1]
    exact isSome_if_java env.java_home _
  · have hprof : dispatch_profile "scientificlinux" env =
        { env := setup_scientificlinux env } := by
      simp [dispatch_profile]
    rw [hprof]
    have hadj := (setup_scientificlinux_fields env).2.2.2.2
    simp only [adjustorFields, Prod.mk.injEq] at hadj
    obtain ⟨hI, hN, hU, hS, hB, hSys⟩ := hadj
    have hval := validator_skip w.runCmd "scientificlinux" (by decide)
    have habort := finish_aborts_at_shim w "scientificlinux"
      { env := setup_scientificlinux env } rfl (hSys.trans hsys) (by rw [hval])
    rw [habort]
    refine ⟨rfl, hI, ?_, hN, hU, hS, hB,
      fun e si h => by simp [cloudman_compatibility, h]⟩
    show (setup_scientificlinux env).java_home.isSome = true
    rw [(setup_scientificlinux_fields env).2.2.1]
    exact isSome_if_java env.java_home _
  · have hprof : dispatch_profile "debian" env = setup_debian env := by
      simp [dispatch_profile]
    rw [hprof]
    have hadj := setup_debian_adjustors env
    simp only [adjustorFields, Prod.mk.injEq] at hadj
    obtain ⟨hI, hN, hU, hS, hB, hSys⟩ := hadj
    have hval := validator_pass w.runCmd "debian" (Or.inl rfl) (hvalid (Or.inr rfl))
    rw [finish_aborts_at_shim w "debian" (setup_debian env)
      (setup_debian_ok env nm hnm) (hSys.trans hsys) (by rw [hval])]
    refine ⟨rfl, hI, ?_, hN, hU, hS, hB,
      fun e si h => by simp [cloudman_compatibility, h]⟩
    rw [(setup_debian_fields env).2.2.1]
    exact isSome_if_java env.java_home _

/-- Witness for C10 on a concrete centos context without
`system_install`. -/
theorem c10_witness :
    (setup_distribution_environment
      { runCmd := fun _ => "", osEnv := fun _ => none, vagrantSshConfig := "" }
      { distribution := some "centos", hosts := some ["myhost"],
        dist_name := some "6" }).err = some (.attributeError "system_install") ∧
    (setup_distribution_environment
      { runCmd := fun _ => "", osEnv := fun _ => none, vagrantSshConfig := "" }
      { distribution := some "centos", hosts := some ["myhost"],
        dist_name := some "6" }).env.install_dir =
      ({ distribution := some "centos", hosts := some ["myhost"],
         dist_name := some "6" } : Env).install_dir ∧
    (setup_distribution_environment
      { runCmd := fun _ => "", osEnv := fun _ => none, vagrantSshConfig := "" }
      { distribution := some "centos", hosts := some ["myhost"],
        dist_name := some "6" }).env.java_home.isSome = true ∧
    (setup_distribution_environment
      { runCmd := fun _ => "", osEnv := fun _ => none, vagrantSshConfig := "" }
      { distribution := some "centos", hosts := some ["myhost"],
        dist_name := some "6" }).env.nixpkgs =
      ({ distribution := some "centos", hosts := some ["myhost"],
         dist_name := some "6" } : Env).nixpkgs ∧
    (setup_distribution_environment
      { runCmd := fun _ => "", osEnv := fun _ => none, vagrantSshConfig := "" }
      { distribution := some "centos", hosts := some ["myhost"],
        dist_name := some "6" }).env.use_sudo =
      ({ distribution := some "centos", hosts := some ["myhost"],
         dist_name := some "6" } : Env).use_sudo ∧
    (setup_distribution_environment
      { runCmd := fun _ => "", osEnv := fun _ => none, vagrantSshConfig := "" }
      { distribution := some "centos", hosts := some ["myhost"],
        dist_name := some "6" }).env.safe_sudo =
      ({ distribution := some "centos", hosts := some ["myhost"],
         dist_name := some "6" } : Env).safe_sudo ∧
    (setup_distribution_environment
      { runCmd := fun _ => "", osEnv := fun _ => none, vagrantSshConfig := "" }
      { distribution := some "centos", hosts := some ["myhost"],
        dist_name := some "6" }).env.is_64bit =
      ({ distribution := some "centos", hosts := some ["myhost"],
         dist_name := some "6" } : Env).is_64bit ∧
    (∀ e si, e.system_install = some si →
      (cloudman_compatibility e).env.install_dir = some si) :=
  c10_system_install_required
    { runCmd := fun _ => "", osEnv := fun _ => none, vagrantSshConfig := "" }
    { distribution := some "centos", hosts := some ["myhost"], dist_name := some "6" }
    "centos" rfl rfl (by decide) (by decide) rfl
    (fun h => absurd h (by decide)) (Or.inr (Or.inl rfl))
